import Mathlib

/-!
# Verification of the product query engine of SOCIAL_BLOG_BACKEND

A shallow embedding of the two query endpoints of `src/main.py`
(`list_products` on `GET /products` and `search` on `GET /search`),
together with the static dataset `FAKE_PRODUCTS`, and proofs of the
testable properties stated for them.

Modelling conventions:
* Python `float` prices are modelled as exact rationals (`ℚ`); every price
  in the dataset and every bound the spec talks about is a decimal literal,
  and the code only compares and sorts prices.
* Python `sorted(..., key=..., reverse=...)` is a stable sort; it is
  embedded as `List.insertionSort` with the corresponding total preorder,
  which computes the same (unique) stable result.
* Python `str.lower` is embedded as a character-wise basic-latin lowering
  (`pyLower`); the dataset and all queries in scope are basic latin.
* Python `needle in hay` on strings is contiguous-substring containment
  (`strContains`).
* `HTTPException` is modelled by returning `Except HttpError`.
-/

namespace SocialBlog

deriving instance DecidableEq for Except

/-- The exact two-decimal price `n / 100` (`n` in cents), built directly in
lowest terms (possible whenever `n` is coprime to `100`, which holds for
every price in the dataset) so that price comparisons evaluate by `decide`:
the library's decimal-literal and division operations are `@[irreducible]`. -/
def cents (n : Nat) (h : Nat.Coprime n 100 := by decide) : ℚ :=
  Rat.mk' n 100 (by decide) h

/-- `cents n` is the ordinary rational `n / 100`. -/
theorem cents_eq (n : Nat) (h : Nat.Coprime n 100) : cents n h = (n : ℚ) / 100 := by
  rw [cents, Rat.mk'_eq_divInt, Rat.divInt_eq_div]
  norm_num

/-- Product record: the shape of the entries of `FAKE_PRODUCTS` and of the
`Product` pydantic model (src/main.py lines 111-130). -/
structure Product where
  id : Nat
  name : String
  category : String
  price : ℚ
  in_stock : Bool
deriving DecidableEq, Repr

/-- The hardcoded dataset `FAKE_PRODUCTS` (src/main.py lines 111-122). -/
def FAKE_PRODUCTS : List Product :=
  [ ⟨1, "Laptop Dell", "electronics", cents 89999, true⟩,
    ⟨2, "Python Book", "books", cents 2999, true⟩,
    ⟨3, "T-Shirt", "clothing", cents 1999, false⟩,
    ⟨4, "iPhone 15", "electronics", cents 99999, true⟩,
    ⟨5, "FastAPI Guide", "books", cents 3999, true⟩,
    ⟨6, "Jeans", "clothing", cents 5999, true⟩,
    ⟨7, "MacBook Pro", "electronics", cents 199999, true⟩,
    ⟨8, "Django Book", "books", cents 3499, false⟩,
    ⟨9, "Jacket", "clothing", cents 8999, true⟩,
    ⟨10, "Samsung Phone", "electronics", cents 79999, true⟩ ]

/-- Python `needle in hay` for lists of characters: `needle` occurs as a
contiguous sublist of `hay`. -/
def containsSub (needle : List Char) : List Char → Bool
  | [] => needle.isEmpty
  | c :: rest => needle.isPrefixOf (c :: rest) || containsSub needle rest

/-- Python `str.lower`, character-wise (basic latin, which covers the whole
dataset and all queries in scope). -/
def pyLower (s : String) : String := ⟨s.data.map Char.toLower⟩

/-- Python `needle in hay` for strings. -/
def strContains (hay needle : String) : Bool := containsSub needle.data hay.data

/-- Python truthiness of an optional string (`if s:`): present and non-empty. -/
def pyTruthy : Option String → Bool
  | none => false
  | some s => !(s == "")

/-- The payload of a raised `HTTPException`. -/
structure HttpError where
  status_code : Nat
  detail : String
deriving DecidableEq, Repr

/-- The query parameters of `GET /products`, after FastAPI has applied the
declared defaults (src/main.py lines 142-151): `limit` defaults to 10,
`offset` to 0 and `sort_order` to `"asc"`. -/
structure ListParams where
  category : Option String
  min_price : Option ℚ
  max_price : Option ℚ
  search_by_name : Option String
  limit : Nat
  offset : Nat
  sort_by : Option String
  sort_order : Option String
  in_stock : Option Bool
deriving DecidableEq, Repr

/-- FastAPI parameter binding for `GET /products`: each argument is the
caller-supplied value or `none` when omitted; omitted `limit`, `offset` and
`sort_order` get the declared defaults 10, 0 and `"asc"`
(src/main.py lines 142-151). -/
def mkListParams (category : Option String) (min_price max_price : Option ℚ)
    (search_by_name : Option String) (limit offset : Option Nat)
    (sort_by sort_order : Option String) (in_stock : Option Bool) : ListParams :=
  { category := category, min_price := min_price, max_price := max_price,
    search_by_name := search_by_name,
    limit := limit.getD 10, offset := offset.getD 0,
    sort_by := sort_by, sort_order := some (sort_order.getD "asc"),
    in_stock := in_stock }

/-- The validation FastAPI performs on the `GET /products` parameters
(src/main.py lines 142-151): non-negative price bounds, `search_by_name` of
length at least 2, `limit` in `[1,100]`, `sort_by` matching `^(price|name)$`
and `sort_order` matching `^(asc|desc)$`.  (`offset ≥ 0` holds by the `Nat`
type.) -/
def validListParams (p : ListParams) : Bool :=
  (match p.min_price with | some mn => decide (0 ≤ mn) | none => true) &&
  (match p.max_price with | some mx => decide (0 ≤ mx) | none => true) &&
  (match p.search_by_name with | some s => decide (2 ≤ s.length) | none => true) &&
  decide (1 ≤ p.limit) && decide (p.limit ≤ 100) &&
  (match p.sort_by with | some sb => sb == "price" || sb == "name" | none => true) &&
  (match p.sort_order with | some so => so == "asc" || so == "desc" | none => true)

/-- The `filters_applied` dict of the listing response
(src/main.py lines 192-202). -/
structure FiltersApplied where
  category : Option String
  min_price : Option ℚ
  max_price : Option ℚ
  search_by_name : Option String
  limit : Nat
  offset : Nat
  sort_by : Option String
  sort_order : Option String
  in_stock : Option Bool
deriving DecidableEq, Repr

/-- `ProductListResponse` (src/main.py lines 133-136). -/
structure ProductListResponse where
  total : Nat
  products : List Product
  filters_applied : FiltersApplied
deriving DecidableEq, Repr

/-- `min_price > max_price` when both bounds are present: the condition under
which `list_products` raises the 400 error (src/main.py lines 157-162). -/
def invalidRange (min_price max_price : Option ℚ) : Bool :=
  match min_price, max_price with
  | some mn, some mx => decide (mx < mn)
  | _, _ => false

/-- Comparison `a.price ≤ b.price`: the ascending order on the `price` key. -/
def priceLe (a b : Product) : Prop := a.price ≤ b.price

/-- Comparison `b.price ≤ a.price`: the descending order on the `price` key
(Python's `reverse=True` sorts by the reversed comparison, stably). -/
def priceGe (a b : Product) : Prop := b.price ≤ a.price

/-- Comparison `a.name ≤ b.name` (lexicographic by code point, as in Python). -/
def nameLe (a b : Product) : Prop := a.name ≤ b.name

/-- Comparison `b.name ≤ a.name`. -/
def nameGe (a b : Product) : Prop := b.name ≤ a.name

instance : DecidableRel priceLe := fun a b => inferInstanceAs (Decidable (a.price ≤ b.price))
instance : DecidableRel priceGe := fun a b => inferInstanceAs (Decidable (b.price ≤ a.price))
instance : DecidableRel nameLe := fun a b => inferInstanceAs (Decidable (a.name ≤ b.name))
instance : DecidableRel nameGe := fun a b => inferInstanceAs (Decidable (b.name ≤ a.name))

instance : IsTotal Product priceLe := ⟨fun a b => le_total a.price b.price⟩
instance : IsTrans Product priceLe := ⟨fun _ _ _ h h' => le_trans h h'⟩
instance : IsTotal Product priceGe := ⟨fun a b => le_total b.price a.price⟩
instance : IsTrans Product priceGe := ⟨fun _ _ _ h h' => le_trans h' h⟩
instance : IsTotal Product nameLe := ⟨fun a b => le_total a.name b.name⟩
instance : IsTrans Product nameLe := ⟨fun _ _ _ h h' => le_trans h h'⟩
instance : IsTotal Product nameGe := ⟨fun a b => le_total b.name a.name⟩
instance : IsTrans Product nameGe := ⟨fun _ _ _ h h' => le_trans h' h⟩

/-- The sort step of `list_products` (src/main.py lines 183-185):
`if sort_by: reverse = (sort_order == "desc");
filtered = sorted(filtered, key=lambda p: p[sort_by], reverse=reverse)`.
Python's `sorted` is stable; `List.insertionSort` with the matching total
preorder computes the same stable result.  The FastAPI pattern
`^(price|name)$` makes any other non-empty `sort_by` unreachable; that dead
branch is modelled as the identity. -/
def sortProducts (sort_by sort_order : Option String) (filtered : List Product) :
    List Product :=
  if pyTruthy sort_by then
    let rev := sort_order == some "desc"
    if sort_by == some "price" then
      if rev then List.insertionSort priceGe filtered
      else List.insertionSort priceLe filtered
    else if sort_by == some "name" then
      if rev then List.insertionSort nameGe filtered
      else List.insertionSort nameLe filtered
    else filtered
  else filtered

/-- `if category: filtered = [p for p in filtered if p["category"] == category]`
(src/main.py lines 168-169; also lines 235-236 of `search`), with Python
truthiness of the optional string: `None` and `""` both skip the filter. -/
def categoryStage (category : Option String) (l : List Product) : List Product :=
  match category with
  | some c => if c == "" then l else l.filter (fun x => x.category == c)
  | none => l

/-- `if min_price is not None: filtered = [p for p in filtered if p["price"] >= min_price]`
(src/main.py lines 171-172). -/
def minPriceStage (min_price : Option ℚ) (l : List Product) : List Product :=
  match min_price with
  | some mn => l.filter (fun x => decide (mn ≤ x.price))
  | none => l

/-- `if max_price is not None: filtered = [p for p in filtered if p["price"] <= max_price]`
(src/main.py lines 174-175). -/
def maxPriceStage (max_price : Option ℚ) (l : List Product) : List Product :=
  match max_price with
  | some mx => l.filter (fun x => decide (x.price ≤ mx))
  | none => l

/-- `if search_by_name: filtered = [p for p in filtered if search_by_name.lower() in p["name"].lower()]`
(src/main.py lines 177-178), with Python truthiness of the optional string. -/
def nameStage (search_by_name : Option String) (l : List Product) : List Product :=
  match search_by_name with
  | some s => if s == "" then l
              else l.filter (fun x => strContains (pyLower x.name) (pyLower s))
  | none => l

/-- `if in_stock is not None: filtered = [p for p in filtered if p["in_stock"] == in_stock]`
(src/main.py lines 180-181). -/
def inStockStage (in_stock : Option Bool) (l : List Product) : List Product :=
  match in_stock with
  | some b => l.filter (fun x => x.in_stock == b)
  | none => l

/-- The five filter steps of `list_products` (src/main.py lines 166-181),
applied to the working copy of the dataset in the order written in the code. -/
def filteredProducts (ds : List Product) (p : ListParams) : List Product :=
  inStockStage p.in_stock
    (nameStage p.search_by_name
      (maxPriceStage p.max_price
        (minPriceStage p.min_price
          (categoryStage p.category ds))))

/-- The filtered-and-sorted working list of `list_products`, just before
pagination (src/main.py lines 166-185). -/
def filteredSorted (ds : List Product) (p : ListParams) : List Product :=
  sortProducts p.sort_by p.sort_order (filteredProducts ds p)

/-- The `filters_applied` echo dict (src/main.py lines 192-202). -/
def echoFilters (p : ListParams) : FiltersApplied :=
  { category := p.category, min_price := p.min_price, max_price := p.max_price,
    search_by_name := p.search_by_name, limit := p.limit, offset := p.offset,
    sort_by := p.sort_by, sort_order := p.sort_order, in_stock := p.in_stock }

/-- The `GET /products` handler `list_products` (src/main.py lines 141-208):
validate the price range, filter, sort, count, slice `[offset : offset+limit]`
and echo the parameters. -/
def list_products (ds : List Product) (p : ListParams) :
    Except HttpError ProductListResponse :=
  if invalidRange p.min_price p.max_price then
    .error ⟨400, "min_price must be less than max_price"⟩
  else
    .ok { total := (filteredSorted ds p).length,
          products := ((filteredSorted ds p).drop p.offset).take p.limit,
          filters_applied := echoFilters p }

/-- `SearchResult` (src/main.py lines 213-217): only `id`, `name`, `category`
and `price`; no `in_stock` field. -/
structure SearchResult where
  id : Nat
  name : String
  category : String
  price : ℚ
deriving DecidableEq, Repr

/-- `SearchResponseModel` (src/main.py lines 220-223). -/
structure SearchResponseModel where
  query : String
  results_count : Nat
  results : List SearchResult
deriving DecidableEq, Repr

/-- The projection `SearchResult(**p)` performed on every surviving product
(src/main.py line 250): it keeps `id`, `name`, `category`, `price` and drops
`in_stock`. -/
def toSearchResult (p : Product) : SearchResult :=
  ⟨p.id, p.name, p.category, p.price⟩

/-- The sort step of `search` (src/main.py lines 241-246): the `elif` chain on
`sort`; any other value (in particular the default `"relevance"`) leaves the
filtered order unchanged. -/
def searchSort (sort : Option String) (results : List Product) : List Product :=
  if sort == some "price_asc" then List.insertionSort priceLe results
  else if sort == some "price_desc" then List.insertionSort priceGe results
  else if sort == some "name" then List.insertionSort nameLe results
  else results

/-- The filter steps of `search` (src/main.py lines 233-238): optional
category exact match (under Python truthiness, same line shape as in
`list_products`), then mandatory case-insensitive substring match of `q`
against the name. -/
def searchFiltered (ds : List Product) (q : String) (category : Option String) :
    List Product :=
  (categoryStage category ds).filter (fun x => strContains (pyLower x.name) (pyLower q))

/-- The `GET /search` handler `search` (src/main.py lines 226-257).  FastAPI
validates `q` (length 2-50) and the `sort` pattern before the body runs; the
body itself raises no errors.  `sort` defaults to `"relevance"`. -/
def search (ds : List Product) (q : String) (category : Option String)
    (sort : Option String) : SearchResponseModel :=
  let results := searchSort sort (searchFiltered ds q category)
  { query := q, results_count := results.length,
    results := results.map toSearchResult }

/-- The module-level state of `src/main.py` visible to the two handlers: the
binding `FAKE_PRODUCTS`. -/
structure ModuleState where
  fake_products : List Product
deriving DecidableEq, Repr

/-- State-passing form of a `GET /products` call.  The handler body reads
`FAKE_PRODUCTS.copy()` and then only rebinds its locals; list comprehensions,
`sorted(...)` and slicing all build new lists, and no statement assigns to the
module binding or calls a mutating method on it, so the translation returns
the module state unchanged. -/
def list_products_call (st : ModuleState) (p : ListParams) :
    Except HttpError ProductListResponse × ModuleState :=
  (list_products st.fake_products p, st)

/-- State-passing form of a `GET /search` call; same reasoning as
`list_products_call`: the body never mutates the module state. -/
def search_call (st : ModuleState) (q : String) (category sort : Option String) :
    SearchResponseModel × ModuleState :=
  (search st.fake_products q category sort, st)

/-- The category predicate of a listing or search request, when active:
exact match on the `category` field; inactive (always true) when the
parameter is absent or empty. -/
def categoryPred (category : Option String) (x : Product) : Bool :=
  match category with
  | some c => c == "" || x.category == c
  | none => true

/-- The `min_price` lower-bound predicate, when active. -/
def minPricePred (min_price : Option ℚ) (x : Product) : Bool :=
  match min_price with
  | some mn => decide (mn ≤ x.price)
  | none => true

/-- The `max_price` upper-bound predicate, when active. -/
def maxPricePred (max_price : Option ℚ) (x : Product) : Bool :=
  match max_price with
  | some mx => decide (x.price ≤ mx)
  | none => true

/-- The case-insensitive name-substring predicate, when active. -/
def namePred (search_by_name : Option String) (x : Product) : Bool :=
  match search_by_name with
  | some s => s == "" || strContains (pyLower x.name) (pyLower s)
  | none => true

/-- The `in_stock` exact-match predicate, when active. -/
def inStockPred (in_stock : Option Bool) (x : Product) : Bool :=
  match in_stock with
  | some b => x.in_stock == b
  | none => true

/-- Spec-side description of "all active filter predicates" of a listing
request (spec §4.1 and §8): category exact match, `min_price` lower bound,
`max_price` upper bound, case-insensitive name substring, `in_stock` match —
each predicate active exactly when the corresponding parameter is present
(and, for the string parameters, non-empty under Python truthiness). -/
def matchesActiveFilterPreds (p : ListParams) (x : Product) : Bool :=
  categoryPred p.category x && minPricePred p.min_price x &&
  maxPricePred p.max_price x && namePred p.search_by_name x &&
  inStockPred p.in_stock x

/-! ### Helper lemmas about the filter pipeline -/

theorem categoryStage_eq (o : Option String) (l : List Product) :
    categoryStage o l = l.filter (fun x => categoryPred o x) := by
  cases o with
  | none => simp [categoryStage, categoryPred]
  | some c =>
    cases h : c == "" <;> simp [categoryStage, categoryPred, h]

theorem minPriceStage_eq (o : Option ℚ) (l : List Product) :
    minPriceStage o l = l.filter (fun x => minPricePred o x) := by
  cases o <;> simp [minPriceStage, minPricePred]

theorem maxPriceStage_eq (o : Option ℚ) (l : List Product) :
    maxPriceStage o l = l.filter (fun x => maxPricePred o x) := by
  cases o <;> simp [maxPriceStage, maxPricePred]

theorem nameStage_eq (o : Option String) (l : List Product) :
    nameStage o l = l.filter (fun x => namePred o x) := by
  cases o with
  | none => simp [nameStage, namePred]
  | some s =>
    cases h : s == "" <;> simp [nameStage, namePred, h]

theorem inStockStage_eq (o : Option Bool) (l : List Product) :
    inStockStage o l = l.filter (fun x => inStockPred o x) := by
  cases o <;> simp [inStockStage, inStockPred]

/-- The five sequenced comprehensions keep exactly the dataset items that
satisfy the conjunction of the active predicates. -/
theorem filteredProducts_eq_filter (ds : List Product) (p : ListParams) :
    filteredProducts ds p = ds.filter (matchesActiveFilterPreds p) := by
  unfold filteredProducts
  rw [categoryStage_eq, minPriceStage_eq, maxPriceStage_eq, nameStage_eq, inStockStage_eq,
      List.filter_filter, List.filter_filter, List.filter_filter, List.filter_filter]
  refine List.filter_congr fun x _ => ?_
  unfold matchesActiveFilterPreds
  cases categoryPred p.category x <;> cases minPricePred p.min_price x <;>
    cases maxPricePred p.max_price x <;> cases namePred p.search_by_name x <;>
    cases inStockPred p.in_stock x <;> rfl

/-- Sorting, whatever the parameters, permutes the working list. -/
theorem sortProducts_perm (sb so : Option String) (l : List Product) :
    List.Perm (sortProducts sb so l) l := by
  simp only [sortProducts]
  split_ifs <;> first | exact List.perm_insertionSort _ _ | exact List.Perm.refl _

/-- The search sort, whatever the parameter, permutes the working list. -/
theorem searchSort_perm (so : Option String) (l : List Product) :
    List.Perm (searchSort so l) l := by
  unfold searchSort
  split_ifs <;> first | exact List.perm_insertionSort _ _ | exact List.Perm.refl _

/-- Success characterization of `list_products`. -/
theorem list_products_ok_iff (ds : List Product) (p : ListParams)
    (r : ProductListResponse) :
    list_products ds p = .ok r ↔
      invalidRange p.min_price p.max_price = false ∧
      r = ⟨(filteredSorted ds p).length,
           ((filteredSorted ds p).drop p.offset).take p.limit, echoFilters p⟩ := by
  unfold list_products
  cases h : invalidRange p.min_price p.max_price <;> simp [h, eq_comm]

/-- Failure characterization of `list_products`. -/
theorem list_products_error_iff (ds : List Product) (p : ListParams) (e : HttpError) :
    list_products ds p = .error e ↔
      invalidRange p.min_price p.max_price = true ∧
      e = ⟨400, "min_price must be less than max_price"⟩ := by
  unfold list_products
  cases h : invalidRange p.min_price p.max_price <;> simp [h, eq_comm]

/-- The 400 condition in terms of the raw parameters. -/
theorem invalidRange_iff (mn? mx? : Option ℚ) :
    invalidRange mn? mx? = true ↔
      ∃ mn mx, mn? = some mn ∧ mx? = some mx ∧ mx < mn := by
  cases mn? <;> cases mx? <;> simp [invalidRange]

/-! ### Helper lemmas about stable sorting -/

/-- Stability of the embedded stable sort, in filter form: the elements whose
key satisfies `pc` (a class on which the order `r` is indiscriminate) come out
of the sort in their original relative order. -/
theorem filter_insertionSort_key {α : Type*} (r : α → α → Prop) [DecidableRel r]
    (pc : α → Bool) (hpc : ∀ a b, pc a = true → pc b = true → r a b) (l : List α) :
    (List.insertionSort r l).filter pc = l.filter pc := by
  have hpw : (l.filter pc).Pairwise r :=
    List.pairwise_of_forall_mem_list fun a ha b hb =>
      hpc a b (List.mem_filter.mp ha).2 (List.mem_filter.mp hb).2
  have hsub : List.Sublist (l.filter pc) (List.insertionSort r l) :=
    List.sublist_insertionSort hpw (List.filter_sublist l)
  have h1 : List.Sublist (l.filter pc) ((List.insertionSort r l).filter pc) := by
    simpa using hsub.filter pc
  have hlen : ((List.insertionSort r l).filter pc).length = (l.filter pc).length :=
    ((List.perm_insertionSort r l).filter pc).length_eq
  exact (h1.eq_of_length hlen.symm).symm

/-- With pairwise-distinct prices, the stable descending price sort is the
exact reverse of the stable ascending price sort. -/
theorem insertionSort_priceGe_eq_reverse (l : List Product)
    (hd : l.Pairwise fun a b => a.price ≠ b.price) :
    List.insertionSort priceGe l = (List.insertionSort priceLe l).reverse := by
  haveI : IsAntisymm Product (fun a b : Product => b.price < a.price) :=
    ⟨fun _ _ h h' => absurd h (lt_asymm h')⟩
  have permD := List.perm_insertionSort priceGe l
  have permA := List.perm_insertionSort priceLe l
  have hdD : (List.insertionSort priceGe l).Pairwise fun a b => a.price ≠ b.price :=
    (permD.pairwise_iff fun h => Ne.symm h).mpr hd
  have hdA : (List.insertionSort priceLe l).Pairwise fun a b => a.price ≠ b.price :=
    (permA.pairwise_iff fun h => Ne.symm h).mpr hd
  have sortedD : (List.insertionSort priceGe l).Pairwise priceGe :=
    List.sorted_insertionSort priceGe l
  have sortedA : (List.insertionSort priceLe l).Pairwise priceLe :=
    List.sorted_insertionSort priceLe l
  have strictD : (List.insertionSort priceGe l).Pairwise fun a b => b.price < a.price :=
    (sortedD.and hdD).imp fun h => lt_of_le_of_ne h.1 (Ne.symm h.2)
  have strictA : (List.insertionSort priceLe l).Pairwise fun a b => a.price < b.price :=
    (sortedA.and hdA).imp fun h => lt_of_le_of_ne h.1 h.2
  have revA : ((List.insertionSort priceLe l).reverse).Pairwise
      fun a b => b.price < a.price :=
    List.pairwise_reverse.mpr strictA
  have hperm : List.Perm (List.insertionSort priceGe l)
      ((List.insertionSort priceLe l).reverse) :=
    permD.trans (permA.symm.trans (List.reverse_perm _).symm)
  exact List.eq_of_perm_of_sorted hperm strictD revA

/-- The price-ascending branch of the sort step. -/
theorem sortProducts_price_asc (l : List Product) :
    sortProducts (some "price") (some "asc") l = List.insertionSort priceLe l := rfl

/-- The price-descending branch of the sort step. -/
theorem sortProducts_price_desc (l : List Product) :
    sortProducts (some "price") (some "desc") l = List.insertionSort priceGe l := rfl

/-! ### Claims -/

/-- C1: for every valid parameter combination on which the list operation
returns a result, the returned `total` equals the number of dataset items
satisfying all active filter predicates (category exact match, `min_price`
lower bound, `max_price` upper bound, case-insensitive name substring,
`in_stock` match), and this value is independent of the `limit` and `offset`
parameters. -/
theorem listing_total_counts_matches (ds : List Product) (p : ListParams)
    (r : ProductListResponse) (hv : validListParams p = true)
    (h : list_products ds p = .ok r) :
    r.total = (ds.filter (matchesActiveFilterPreds p)).length ∧
    ∀ lim off r', list_products ds { p with limit := lim, offset := off } = .ok r' →
      r'.total = r.total := by
  obtain ⟨hinv, rfl⟩ := (list_products_ok_iff ds p r).mp h
  constructor
  · show (filteredSorted ds p).length = _
    rw [filteredSorted, (sortProducts_perm _ _ _).length_eq, filteredProducts_eq_filter]
  · intro lim off r' h'
    obtain ⟨hinv', rfl⟩ := (list_products_ok_iff ds _ r').mp h'
    rfl

/-- Witness for C1 at a concrete input: `category=books`, `offset=5`,
`limit=10` on the 10-item dataset gives `total = 3` (the count of books)
even though the products page is empty, and any other `limit`/`offset` give
the same total. -/
theorem listing_total_counts_matches_witness :
    (3 = (FAKE_PRODUCTS.filter (matchesActiveFilterPreds
        ⟨some "books", none, none, none, 10, 5, none, some "asc", none⟩)).length) ∧
    ∀ lim off r', list_products FAKE_PRODUCTS
        { (⟨some "books", none, none, none, 10, 5, none, some "asc", none⟩ : ListParams) with
          limit := lim, offset := off } = .ok r' → r'.total = 3 :=
  listing_total_counts_matches FAKE_PRODUCTS
    ⟨some "books", none, none, none, 10, 5, none, some "asc", none⟩
    ⟨3, [], echoFilters ⟨some "books", none, none, none, 10, 5, none, some "asc", none⟩⟩
    (by decide) (by decide)

/-- C2: for every valid list request that returns, the products page has
length `min(limit, max(0, total - offset))`; when `offset ≥ total` the page
is empty; and no choice of `limit`/`offset` can make the call fail. -/
theorem listing_pagination_window (ds : List Product) (p : ListParams)
    (r : ProductListResponse) (hv : validListParams p = true)
    (h : list_products ds p = .ok r) :
    ((r.products.length : ℤ) = min (p.limit : ℤ) (max 0 ((r.total : ℤ) - (p.offset : ℤ)))) ∧
    (r.total ≤ p.offset → r.products = []) ∧
    ∀ lim off, ∃ r', list_products ds { p with limit := lim, offset := off } = .ok r' := by
  obtain ⟨hinv, rfl⟩ := (list_products_ok_iff ds p r).mp h
  dsimp only
  have hn : (((filteredSorted ds p).drop p.offset).take p.limit).length
      = min p.limit ((filteredSorted ds p).length - p.offset) := by
    simp [List.length_take, List.length_drop]
  refine ⟨by omega, fun hle => List.length_eq_zero.mp (by omega), fun lim off => ?_⟩
  exact ⟨_, (list_products_ok_iff ds _ _).mpr ⟨hinv, rfl⟩⟩

/-- Witness for C2 at a concrete input: `category=books`, `limit=2`,
`offset=1` on the 10-item dataset: the page has `min(2, max(0, 3-1)) = 2`
items, and varying `limit`/`offset` never raises. -/
theorem listing_pagination_window_witness :
    ((2 : ℤ) = min (2 : ℤ) (max 0 ((3 : ℤ) - (1 : ℤ)))) ∧
    ((3 : Nat) ≤ 1 → [(⟨5, "FastAPI Guide", "books", cents 3999, true⟩ : Product),
        ⟨8, "Django Book", "books", cents 3499, false⟩] = []) ∧
    ∀ lim off, ∃ r', list_products FAKE_PRODUCTS
        { (⟨some "books", none, none, none, 2, 1, none, some "asc", none⟩ : ListParams) with
          limit := lim, offset := off } = .ok r' :=
  listing_pagination_window FAKE_PRODUCTS
    ⟨some "books", none, none, none, 2, 1, none, some "asc", none⟩
    ⟨3, [⟨5, "FastAPI Guide", "books", cents 3999, true⟩,
         ⟨8, "Django Book", "books", cents 3499, false⟩],
     echoFilters ⟨some "books", none, none, none, 2, 1, none, some "asc", none⟩⟩
    (by decide) (by decide)

/-- C3: the list operation fails — necessarily with status 400 and detail
"min_price must be less than max_price" — exactly when both price bounds are
supplied and `min_price > max_price`; the `Except` result shows that in that
case no listing is produced. -/
theorem listing_invalid_range_400 (ds : List Product) (p : ListParams) :
    ((∃ e, list_products ds p = .error e) ↔
      ∃ mn mx, p.min_price = some mn ∧ p.max_price = some mx ∧ mx < mn) ∧
    ∀ e, list_products ds p = .error e →
      e = ⟨400, "min_price must be less than max_price"⟩ := by
  constructor
  · constructor
    · rintro ⟨e, he⟩
      exact (invalidRange_iff _ _).mp ((list_products_error_iff ds p e).mp he).1
    · intro hex
      exact ⟨_, (list_products_error_iff ds p _).mpr ⟨(invalidRange_iff _ _).mpr hex, rfl⟩⟩
  · intro e he
    exact ((list_products_error_iff ds p e).mp he).2

/-- Witness for C3 at a concrete input: `min_price=1000`, `max_price=10`
makes the call fail. -/
theorem listing_invalid_range_400_witness :
    ∃ e, list_products FAKE_PRODUCTS
      ⟨none, some 1000, some 10, none, 10, 0, none, some "asc", none⟩ = .error e :=
  (listing_invalid_range_400 FAKE_PRODUCTS
      ⟨none, some 1000, some 10, none, 10, 0, none, some "asc", none⟩).1.mpr
    ⟨1000, 10, rfl, rfl, by norm_num⟩

/-- C4: sorting any working list by price descending gives exactly the
reverse of sorting it ascending when all prices are distinct; and in both
directions the elements of any fixed price class keep their relative input
order (stability). -/
theorem price_sort_reverse_and_stable (l : List Product) :
    (l.Pairwise (fun a b => a.price ≠ b.price) →
      sortProducts (some "price") (some "desc") l =
        (sortProducts (some "price") (some "asc") l).reverse) ∧
    ∀ c : ℚ,
      (sortProducts (some "price") (some "asc") l).filter (fun x => decide (x.price = c)) =
          l.filter (fun x => decide (x.price = c)) ∧
      (sortProducts (some "price") (some "desc") l).filter (fun x => decide (x.price = c)) =
          l.filter (fun x => decide (x.price = c)) := by
  rw [sortProducts_price_asc, sortProducts_price_desc]
  refine ⟨insertionSort_priceGe_eq_reverse l, fun c => ⟨?_, ?_⟩⟩
  · refine filter_insertionSort_key priceLe _ (fun a b ha hb => ?_) l
    have ha' := of_decide_eq_true ha
    have hb' := of_decide_eq_true hb
    exact le_of_eq (ha'.trans hb'.symm)
  · refine filter_insertionSort_key priceGe _ (fun a b ha hb => ?_) l
    have ha' := of_decide_eq_true ha
    have hb' := of_decide_eq_true hb
    exact le_of_eq (hb'.trans ha'.symm)

/-- Witness for C4 at a concrete three-product list with distinct prices. -/
theorem price_sort_reverse_and_stable_witness :
    (sortProducts (some "price") (some "desc")
        [⟨1, "a", "c", cents 2999, true⟩, ⟨2, "b", "c", cents 1999, true⟩,
         ⟨3, "d", "c", cents 3999, false⟩] =
      (sortProducts (some "price") (some "asc")
        [⟨1, "a", "c", cents 2999, true⟩, ⟨2, "b", "c", cents 1999, true⟩,
         ⟨3, "d", "c", cents 3999, false⟩]).reverse) ∧
    (sortProducts (some "price") (some "asc")
        [⟨1, "a", "c", cents 2999, true⟩, ⟨2, "b", "c", cents 1999, true⟩,
         ⟨3, "d", "c", cents 3999, false⟩]).filter (fun x => decide (x.price = cents 1999)) =
      [(⟨1, "a", "c", cents 2999, true⟩ : Product), ⟨2, "b", "c", cents 1999, true⟩,
       ⟨3, "d", "c", cents 3999, false⟩].filter (fun x => decide (x.price = cents 1999)) :=
  ⟨(price_sort_reverse_and_stable
      [⟨1, "a", "c", cents 2999, true⟩, ⟨2, "b", "c", cents 1999, true⟩,
       ⟨3, "d", "c", cents 3999, false⟩]).1 (by decide),
   ((price_sort_reverse_and_stable
      [⟨1, "a", "c", cents 2999, true⟩, ⟨2, "b", "c", cents 1999, true⟩,
       ⟨3, "d", "c", cents 3999, false⟩]).2 (cents 1999)).1⟩

/-- C5 counterexample: on the 10-item dataset, `q="book"` matches three
names case-insensitively — "Python Book", "MacBook Pro" and "Django Book" —
so with `sort=price_desc` the search returns `results_count = 3`, not 2. -/
theorem search_book_desc_counterexample :
    (search FAKE_PRODUCTS "book" none (some "price_desc")).results_count = 3 ∧
    (search FAKE_PRODUCTS "book" none (some "price_desc")).results_count ≠ 2 := by
  exact ⟨by decide, by decide⟩

/-- C5 amended: on the 10-item dataset, `q="book"` with `sort=price_desc`
returns `results_count = 3`; the matches in dataset order are
[Python Book(29.99), MacBook Pro(1999.99), Django Book(34.99)], reordered
descending by price to
[MacBook Pro(1999.99), Django Book(34.99), Python Book(29.99)]. -/
theorem search_book_desc_amended :
    search FAKE_PRODUCTS "book" none (some "price_desc") =
      ⟨"book", 3,
       [⟨7, "MacBook Pro", "electronics", cents 199999⟩,
        ⟨8, "Django Book", "books", cents 3499⟩,
        ⟨2, "Python Book", "books", cents 2999⟩]⟩ ∧
    searchFiltered FAKE_PRODUCTS "book" none =
      [⟨2, "Python Book", "books", cents 2999, true⟩,
       ⟨7, "MacBook Pro", "electronics", cents 199999, true⟩,
       ⟨8, "Django Book", "books", cents 3499, false⟩] := by
  exact ⟨by decide, by decide⟩

/-- C6: name matching is case-insensitive in both operations.  Whenever two
query strings have the same Python lowering (in particular when they differ
only in letter case, e.g. "laptop" vs "LAPTOP"), the listing returns the
same `total` and `products`, and the search returns the same count and
result set. -/
theorem case_insensitive_name_match (ds : List Product) (p : ListParams)
    (s₁ s₂ q₁ q₂ : String) (cat so : Option String)
    (hs : pyLower s₁ = pyLower s₂) (hq : pyLower q₁ = pyLower q₂) :
    ((list_products ds { p with search_by_name := some s₁ }).map
        (fun r => (r.total, r.products)) =
      (list_products ds { p with search_by_name := some s₂ }).map
        (fun r => (r.total, r.products))) ∧
    ((search ds q₁ cat so).results_count = (search ds q₂ cat so).results_count ∧
     (search ds q₁ cat so).results = (search ds q₂ cat so).results) := by
  have hdata : s₁.data.map Char.toLower = s₂.data.map Char.toLower :=
    congrArg String.data hs
  have hemp : (s₁ = "") ↔ (s₂ = "") := by
    constructor <;> intro h <;> subst h
    · have h2 : s₂.data.map Char.toLower = [] := hdata.symm
      rw [List.map_eq_nil_iff] at h2
      cases s₂
      simp_all
    · have h2 : s₁.data.map Char.toLower = [] := hdata
      rw [List.map_eq_nil_iff] at h2
      cases s₁
      simp_all
  have hstage : ∀ l : List Product, nameStage (some s₁) l = nameStage (some s₂) l := by
    intro l
    unfold nameStage
    by_cases h1 : s₁ = ""
    · have h2 : s₂ = "" := hemp.mp h1
      simp [h1, h2]
    · have h2 : ¬s₂ = "" := fun h => h1 (hemp.mpr h)
      simp only [beq_iff_eq, if_neg h1, if_neg h2, hs]
  have hfp : filteredProducts ds { p with search_by_name := some s₁ } =
      filteredProducts ds { p with search_by_name := some s₂ } := by
    unfold filteredProducts
    dsimp only
    rw [inStockStage_eq, inStockStage_eq, hstage]
  have hls : filteredSorted ds { p with search_by_name := some s₁ } =
      filteredSorted ds { p with search_by_name := some s₂ } := by
    unfold filteredSorted
    dsimp only
    rw [hfp]
  have hsf : searchFiltered ds q₁ cat = searchFiltered ds q₂ cat := by
    unfold searchFiltered
    exact List.filter_congr fun x _ => by rw [hq]
  refine ⟨?_, ?_, ?_⟩
  · unfold list_products
    dsimp only
    cases h : invalidRange p.min_price p.max_price <;> simp [Except.map, hls]
  · unfold search
    dsimp only
    rw [hsf]
  · unfold search
    dsimp only
    rw [hsf]

/-- Witness for C6: "laptop" and "LAPTOP" give identical results on the
10-item dataset, for both operations. -/
theorem case_insensitive_name_match_witness :
    ((list_products FAKE_PRODUCTS
        { (⟨none, none, none, none, 10, 0, none, some "asc", none⟩ : ListParams) with
          search_by_name := some "laptop" }).map (fun r => (r.total, r.products)) =
      (list_products FAKE_PRODUCTS
        { (⟨none, none, none, none, 10, 0, none, some "asc", none⟩ : ListParams) with
          search_by_name := some "LAPTOP" }).map (fun r => (r.total, r.products))) ∧
    ((search FAKE_PRODUCTS "laptop" none (some "relevance")).results_count =
      (search FAKE_PRODUCTS "LAPTOP" none (some "relevance")).results_count ∧
     (search FAKE_PRODUCTS "laptop" none (some "relevance")).results =
      (search FAKE_PRODUCTS "LAPTOP" none (some "relevance")).results) :=
  case_insensitive_name_match FAKE_PRODUCTS
    ⟨none, none, none, none, 10, 0, none, some "asc", none⟩
    "laptop" "LAPTOP" "laptop" "LAPTOP" none (some "relevance")
    (by decide) (by decide)

/-- C7: the `filters_applied` record of a listing response echoes, verbatim,
every parameter value the caller supplied — `category`, `min_price`,
`max_price`, `search_by_name`, `sort_by`, `in_stock` — together with the
bound values of `limit`, `offset` and `sort_order`, which are the documented
defaults 10, 0 and `"asc"` whenever the caller omitted them. -/
theorem filters_applied_echo (ds : List Product) (c : Option String)
    (mn mx : Option ℚ) (sbn : Option String) (lim off : Option Nat)
    (sb so : Option String) (stk : Option Bool) (r : ProductListResponse)
    (h : list_products ds (mkListParams c mn mx sbn lim off sb so stk) = .ok r) :
    r.filters_applied.category = c ∧ r.filters_applied.min_price = mn ∧
    r.filters_applied.max_price = mx ∧ r.filters_applied.search_by_name = sbn ∧
    r.filters_applied.sort_by = sb ∧ r.filters_applied.in_stock = stk ∧
    r.filters_applied.limit = lim.getD 10 ∧ r.filters_applied.offset = off.getD 0 ∧
    r.filters_applied.sort_order = some (so.getD "asc") ∧
    (lim = none → r.filters_applied.limit = 10) ∧
    (off = none → r.filters_applied.offset = 0) ∧
    (so = none → r.filters_applied.sort_order = some "asc") := by
  obtain ⟨hinv, rfl⟩ := (list_products_ok_iff ds _ r).mp h
  refine ⟨rfl, rfl, rfl, rfl, rfl, rfl, rfl, rfl, rfl, ?_, ?_, ?_⟩ <;>
    (intro hnone; subst hnone; rfl)

/-- Witness for C7 at a concrete input: the all-defaults call on the empty
dataset echoes `null` filters and the defaults `limit=10`, `offset=0`,
`sort_order="asc"`. -/
theorem filters_applied_echo_witness :
    (FiltersApplied.mk none none none none 10 0 none (some "asc") none).category
        = (none : Option String) ∧
    (FiltersApplied.mk none none none none 10 0 none (some "asc") none).min_price
        = (none : Option ℚ) ∧
    (FiltersApplied.mk none none none none 10 0 none (some "asc") none).max_price
        = (none : Option ℚ) ∧
    (FiltersApplied.mk none none none none 10 0 none (some "asc") none).search_by_name
        = (none : Option String) ∧
    (FiltersApplied.mk none none none none 10 0 none (some "asc") none).sort_by
        = (none : Option String) ∧
    (FiltersApplied.mk none none none none 10 0 none (some "asc") none).in_stock
        = (none : Option Bool) ∧
    (FiltersApplied.mk none none none none 10 0 none (some "asc") none).limit = 10 ∧
    (FiltersApplied.mk none none none none 10 0 none (some "asc") none).offset = 0 ∧
    (FiltersApplied.mk none none none none 10 0 none (some "asc") none).sort_order
        = some "asc" ∧
    ((none : Option Nat) = none →
      (FiltersApplied.mk none none none none 10 0 none (some "asc") none).limit = 10) ∧
    ((none : Option Nat) = none →
      (FiltersApplied.mk none none none none 10 0 none (some "asc") none).offset = 0) ∧
    ((none : Option String) = none →
      (FiltersApplied.mk none none none none 10 0 none (some "asc") none).sort_order
        = some "asc") :=
  filters_applied_echo [] none none none none none none none none none
    ⟨0, [], ⟨none, none, none, none, 10, 0, none, some "asc", none⟩⟩ (by decide)

/-- C8: neither handler mutates the module-level dataset: in the
state-passing translation of the two handler bodies (whose statements only
rebind locals and build fresh lists), the module state after any call — and
in particular the product list and each of its records — is exactly the
state before it. -/
theorem dataset_never_mutated (st : ModuleState) (p : ListParams) (q : String)
    (cat so : Option String) :
    (list_products_call st p).2 = st ∧ (search_call st q cat so).2 = st ∧
    (list_products_call st p).2.fake_products = st.fake_products ∧
    (search_call st q cat so).2.fake_products = st.fake_products :=
  ⟨rfl, rfl, rfl, rfl⟩

/-- C9 counterexample: a listing call with `category=""` does not return the
same response as the call without `category`: the `filters_applied` echo
differs (`some ""` versus `null`), even though `total` and `products`
agree. -/
theorem empty_category_not_omitted_counterexample :
    list_products FAKE_PRODUCTS ⟨some "", none, none, none, 10, 0, none, some "asc", none⟩ ≠
      list_products FAKE_PRODUCTS ⟨none, none, none, none, 10, 0, none, some "asc", none⟩ := by
  decide

/-- C9 amended: an empty-string `category` disables the category filter in
both operations exactly like an omitted one: the listing returns the same
`total` and `products` as the category-free call (only the verbatim
`filters_applied` echo differs), and the search response is identical in
full. -/
theorem empty_category_no_filter (ds : List Product) (p : ListParams) (q : String)
    (so : Option String) :
    ((list_products ds { p with category := some "" }).map
        (fun r => (r.total, r.products)) =
      (list_products ds { p with category := none }).map
        (fun r => (r.total, r.products))) ∧
    search ds q (some "") so = search ds q none so := by
  have hcs : ∀ l : List Product, categoryStage (some "") l = categoryStage none l := by
    intro l
    simp [categoryStage]
  have hfp : filteredProducts ds { p with category := some "" } =
      filteredProducts ds { p with category := none } := by
    unfold filteredProducts
    dsimp only
    rw [hcs]
  have hls : filteredSorted ds { p with category := some "" } =
      filteredSorted ds { p with category := none } := by
    unfold filteredSorted
    dsimp only
    rw [hfp]
  have hsf : searchFiltered ds q (some "") = searchFiltered ds q none := by
    unfold searchFiltered
    rw [hcs]
  constructor
  · unfold list_products
    dsimp only
    cases h : invalidRange p.min_price p.max_price <;> simp [Except.map, hls]
  · unfold search
    dsimp only
    rw [hsf]

/-- C10: search never filters on stock status: every dataset product whose
category passes the (possibly inactive) category predicate and whose name
contains `q` case-insensitively is in the results — with no condition on its
`in_stock` field — and conversely every result is the `id`/`name`/`category`/
`price` projection (which omits `in_stock`) of such a dataset product. -/
theorem search_ignores_stock (ds : List Product) (q : String) (cat so : Option String) :
    (∀ x ∈ ds, categoryPred cat x = true →
      strContains (pyLower x.name) (pyLower q) = true →
      toSearchResult x ∈ (search ds q cat so).results) ∧
    (∀ y ∈ (search ds q cat so).results, ∃ x, x ∈ ds ∧ y = toSearchResult x ∧
      strContains (pyLower x.name) (pyLower q) = true) := by
  have hres : (search ds q cat so).results =
      (searchSort so (searchFiltered ds q cat)).map toSearchResult := rfl
  constructor
  · intro x hx hcat hname
    have h1 : x ∈ categoryStage cat ds := by
      rw [categoryStage_eq]
      exact List.mem_filter.mpr ⟨hx, hcat⟩
    have h2 : x ∈ searchFiltered ds q cat := by
      unfold searchFiltered
      exact List.mem_filter.mpr ⟨h1, hname⟩
    have h3 : x ∈ searchSort so (searchFiltered ds q cat) :=
      (searchSort_perm so _).mem_iff.mpr h2
    rw [hres]
    exact List.mem_map_of_mem toSearchResult h3
  · intro y hy
    rw [hres] at hy
    obtain ⟨x, hx, rfl⟩ := List.mem_map.mp hy
    have h2 : x ∈ searchFiltered ds q cat := (searchSort_perm so _).mem_iff.mp hx
    unfold searchFiltered at h2
    have h3 := List.mem_filter.mp h2
    have h4 : x ∈ categoryStage cat ds := h3.1
    rw [categoryStage_eq] at h4
    exact ⟨x, (List.mem_filter.mp h4).1, rfl, h3.2⟩

/-- Witness for C10: the out-of-stock "T-Shirt" appears in the results of
`q="shirt"`. -/
theorem search_ignores_stock_witness :
    toSearchResult ⟨3, "T-Shirt", "clothing", cents 1999, false⟩ ∈
      (search FAKE_PRODUCTS "shirt" none (some "relevance")).results :=
  (search_ignores_stock FAKE_PRODUCTS "shirt" none (some "relevance")).1
    ⟨3, "T-Shirt", "clothing", cents 1999, false⟩ (by decide) (by decide) (by decide)

end SocialBlog
